import Mathlib

/-!
Verification of the muser repository (laporte-m/muser) against its
natural-language specification.

The development shallowly embeds the relevant parts of the source:

* `src/muser/sequencer.py` — MIDI constants, `vector_to_midi_events`,
  `midi_all_notes_off`, `midi_velocity_vector`, `chord_to_velocity_vector`,
  `random_velocity_vector`.
* `src/examples/nn_fft.py` — the jack `process` callback, the capture
  polling loop, the close sequence of a capture cycle and the
  `KeyboardInterrupt`/`SystemExit` handler.

Numpy velocity vectors are embedded as `List Rat`; `dtype=np.uint8` stores
are embedded as truncation toward zero followed by reduction modulo 256,
which is what numpy does when it casts an in-range-of-int64 float (or an
int64) into a uint8 cell.  Python exceptions are embedded with
`Except String`, the error string naming the Python exception type.
-/

deriving instance DecidableEq for Except

/-- MIDI byte constants of sequencer.py lines 19-22: N_PITCHES = 127. -/
def N_PITCHES : Nat := 127

/-- VELOCITY_HI of sequencer.py line 21. -/
def VELOCITY_HI : Nat := 127

/-- STATUS_BYTES dict of sequencer.py lines 25-29, as an association list. -/
def STATUS_BYTES : List (String × Nat) :=
  [("NOTE_ON", 0x90), ("NOTE_OFF", 0x80), ("CONTROL", 0xB0)]

/-- CONTROL_BYTES dict of sequencer.py lines 30-37, as an association list. -/
def CONTROL_BYTES : List (String × Nat) :=
  [("PEDAL_SUSTAIN", 0x40), ("PEDAL_PORTAMENTO", 0x41), ("PEDAL_SOSTENUTO", 0x42),
   ("PEDAL_SOFT", 0x43), ("RESET_ALL_CONTROLLERS", 0x79), ("ALL_NOTES_OFF", 0x7B)]

/-- PITCH_LIMS dict of sequencer.py lines 40-43. -/
def PITCH_LIMS : List (String × (Nat × Nat)) :=
  [("midi", (0, 127)), ("piano", (21, 108))]

/-- PITCH_RANGES of sequencer.py lines 44-45: for each pitch-limit entry
(lo, hi), the vector np.arange(lo, hi + 1), embedded as List.range' lo
(hi + 1 - lo). -/
def PITCH_RANGES (name : String) : Option (List Nat) :=
  (PITCH_LIMS.lookup name).map (fun lim => List.range' lim.1 (lim.2 + 1 - lim.1))

/-- A 3-byte MIDI event row of the arrays sequencer.py builds:
(status, data1, data2), each a byte stored in a uint8 cell. -/
structure MidiEvent where
  status : Nat
  data1 : Nat
  data2 : Nat
deriving DecidableEq, Repr

/-- Truncation toward zero of a rational, the C cast a numpy float-to-integer
conversion performs before the destination width is applied. -/
def truncTowardZero (q : Rat) : Int :=
  if 0 ≤ q then ⌊q⌋ else ⌈q⌉

/-- Storage of a float value into a np.uint8 cell: truncation toward zero,
then reduction modulo 256 (two-s complement wrap of the low byte). -/
def floatToUint8 (q : Rat) : Nat :=
  ((truncTowardZero q) % 256).toNat

/-- np.flatnonzero(velocity_vector): the indices of the nonzero entries, in
ascending order (sequencer.py line 198). -/
def flatnonzero (velocity_vector : List Rat) : List Nat :=
  (List.range velocity_vector.length).filter
    (fun i => decide (velocity_vector.getD i 0 ≠ 0))

/-- Uint8 store of entry * VELOCITY_HI (sequencer.py lines 199 and 203).
The product entry * 127 is written as the fraction (num * 127) / den via
mkRat so that the kernel can evaluate it; the theorem scaleVelocityToUint8_eq
below proves it equal to floatToUint8 (entry * (VELOCITY_HI : Rat)), the
verbatim reading of the source. -/
def scaleVelocityToUint8 (entry : Rat) : Nat :=
  floatToUint8 (mkRat (entry.num * (VELOCITY_HI : Int)) entry.den)

/-- vector_to_midi_events of sequencer.py lines 185-205, for an integer
status argument (for an integer, the _key_check of line 197 returns the
argument unchanged: an int has no upper() method).  Lines 198-204: one event
row per nonzero entry of the vector, rows ordered by np.flatnonzero, i.e. by
ascending index; every cell is stored into a uint8 array, so the status and
the pitch index are reduced modulo 256 and the velocity entry * VELOCITY_HI
is truncated toward zero and reduced modulo 256. -/
def vector_to_midi_events (status : Nat) (velocity_vector : List Rat) : List MidiEvent :=
  (flatnonzero velocity_vector).map (fun p =>
    { status := status % 256
      data1 := p % 256
      data2 := scaleVelocityToUint8 (velocity_vector.getD p 0) })

/-- Argument to the pitch_range parameter of midi_all_notes_off: either a
string key of PITCH_RANGES or a Python tuple (lo, hi) of bounds. -/
inductive PitchRangeArg where
  | key (name : String)
  | pair (lo hi : Nat)

/-- midi_all_notes_off of sequencer.py lines 165-182.  With midi_basic=True
it builds pitches_off = np.zeros(N_PITCHES), sets pitches_off[slice(*pitch_range)]
to 1 and encodes the vector with status NOTE_OFF.  When pitch_range resolves
through _key_check to one of the PITCH_RANGES arrays (128 or 88 elements),
slice(*pitch_range) unpacks the whole array into the arguments of slice,
which accepts at most 3, so Python raises TypeError; the function only works
when pitch_range is passed as a 2-tuple of bounds, which _key_check returns
unchanged.  With midi_basic=False it returns the single row
(CONTROL, ALL_NOTES_OFF, 0). -/
def midi_all_notes_off (midi_basic : Bool) (pitch_range : PitchRangeArg) :
    Except String (List MidiEvent) :=
  if midi_basic then
    match pitch_range with
    | .key _ => .error "TypeError"
    | .pair lo hi =>
        let pitches_off : List Rat :=
          (List.range N_PITCHES).map (fun i => if lo ≤ i ∧ i < hi then 1 else 0)
        .ok (vector_to_midi_events ((STATUS_BYTES.lookup "NOTE_OFF").getD 0) pitches_off)
  else
    .ok [{ status := (STATUS_BYTES.lookup "CONTROL").getD 0
           data1 := (CONTROL_BYTES.lookup "ALL_NOTES_OFF").getD 0
           data2 := 0 }]

/-- A music21 chord as chord_to_velocity_vector consumes it: the MIDI
numbers of its pitches (chord.pitches, each read through p.midi) and the
chord-level volume velocity (chord.volume.velocity), which may be None. -/
structure Chord where
  pitches : List Nat
  volume_velocity : Option Rat

/-- midi_velocity_vector of sequencer.py lines 233-235:
np.zeros(PITCH_RANGES[midi-key][1]), a vector of zeros whose length is the
element at index 1 of np.arange(0, 128), i.e. 1. -/
def midi_velocity_vector : List Rat :=
  List.replicate (((PITCH_RANGES "midi").getD []).getD 1 0) 0

/-- Resolution of one numpy index against an axis of the given length:
an index i is valid when -len <= i < len, a negative index counting from
the end.  none embeds an out-of-bounds index (IndexError). -/
def normIndex (len : Nat) (i : Int) : Option Nat :=
  if 0 ≤ i ∧ i < (len : Int) then some i.toNat
  else if -(len : Int) ≤ i ∧ i < 0 then some ((len : Int) + i).toNat
  else none

/-- Resolution of a numpy fancy-index list: every index must be in bounds,
otherwise the assignment raises IndexError (embedded as none). -/
def resolveIndices (len : Nat) : List Int → Option (List Nat)
  | [] => some []
  | i :: is =>
      match normIndex len i, resolveIndices len is with
      | some j, some js => some (j :: js)
      | _, _ => none

/-- Numpy fancy-index assignment v[idxs] = x: checks every index against
the length of v, raising IndexError when one is out of bounds, and
otherwise writes x at every resolved position. -/
def setIndices (v : List Rat) (idxs : List Int) (x : Rat) : Except String (List Rat) :=
  match resolveIndices v.length idxs with
  | none => .error "IndexError"
  | some js => .ok (js.foldl (fun acc j => acc.set j x) v)

/-- chord_to_velocity_vector of sequencer.py lines 122-136: the chord-level
velocity (1.0 when chord.volume.velocity is None), a fresh
midi_velocity_vector, and the fancy assignment
velocity_vector[[p.midi - 1 for p in chord.pitches]] = chord_velocity. -/
def chord_to_velocity_vector (chord : Chord) : Except String (List Rat) :=
  let chord_velocity : Rat := chord.volume_velocity.getD 1
  let velocity_vector := midi_velocity_vector
  setIndices velocity_vector (chord.pitches.map (fun p : Nat => (p : Int) - 1)) chord_velocity

/-- random_velocity_vector of sequencer.py lines 145-162, with the two
random choices abstracted into parameters: drawn_pitches stands for the
np.random.choice draw of random_chord (chord_size pitches from the pitch
range, without replacement when unique=True), and chord_velocity for the
chord-level volume velocity of the music21 Chord that random_chord builds.
The function then converts the chord with chord_to_velocity_vector. -/
def random_velocity_vector (drawn_pitches : List Nat) (chord_velocity : Option Rat) :
    Except String (List Rat) :=
  chord_to_velocity_vector { pitches := drawn_pitches, volume_velocity := chord_velocity }

/-- An audio frame of examples/nn_fft.py: one sample block per channel
(buffer_ has shape [channels, 1, buffer_size]). -/
abbrev Frame := List (List Rat)

/-- Channel 0 of a frame: buffer_[0] in the polling condition of
nn_fft.py line 86. -/
def frameChannel0 (f : Frame) : List Rat := f.headD []

/-- np.any over a sample block: true when some sample is nonzero. -/
def npAny (samples : List Rat) : Bool := samples.any (fun x => decide (x ≠ 0))

/-- All-channel silence of a frame: every sample of every channel is 0.
The specification wording for a silent frame covers all samples; the code
of nn_fft.py line 86 tests only channel 0. -/
def frameSilentAll (f : Frame) : Bool := f.all (fun ch => ch.all (fun x => decide (x = 0)))

/-- The state the nn_fft.py capture machinery shares between the jack
callback and the control loop: the accumulated buffers array (its frame
axis), the scratch block buffer_ last written by the callback, and the
note_toggle flag. -/
structure LoopState where
  buffers : List Frame
  buffer_ : Frame
  note_toggle : Bool

/-- The jack process callback of nn_fft.py lines 64-72: when note_toggle is
set, copy the inport blocks into buffer_ and append them to buffers;
otherwise do nothing. -/
def process (s : LoopState) (f : Frame) : LoopState :=
  if s.note_toggle then { s with buffer_ := f, buffers := s.buffers ++ [f] } else s

/-- The polling condition of nn_fft.py line 86:
while np.any(buffer_[0]) or buffers.shape[1] < 10.  The loop keeps spinning
while channel 0 of the scratch block has a nonzero sample or fewer than 10
frames are accumulated. -/
def drainingCond (s : LoopState) : Bool :=
  npAny (frameChannel0 s.buffer_) || decide (s.buffers.length < 10)

/-- One capture cycle of the nn_fft.py polling loop (lines 84-89) against a
scripted sequence of callback frames: between consecutive frames the control
thread evaluates the polling condition; while it holds the next scripted
frame is delivered to process, and when it fails the loop exits and the
remaining frames are never captured. -/
def captureLoop : LoopState → List Frame → LoopState
  | s, [] => s
  | s, f :: fs => if drainingCond s then captureLoop (process s f) fs else s

/-- The state right after the trigger of nn_fft.py lines 84-85:
note_toggle = True, no frames accumulated yet, and the scratch block still
holding its pre-loop contents. -/
def initState (scratch : Frame) : LoopState :=
  { buffers := [], buffer_ := scratch, note_toggle := true }

/-- Modelled from the spec: muser.iodata.to_midi_note_events, called at
nn_fft.py line 83, is not among the source files; per the specification the
EventCodec encodes a vector into note-on/note-off pairs, so the pair is
(encode(v, NOTE_ON), encode(v, NOTE_OFF)) with the encode of sequencer.py. -/
def to_midi_note_events (v : List Rat) : List MidiEvent × List MidiEvent :=
  (vector_to_midi_events ((STATUS_BYTES.lookup "NOTE_ON").getD 0) v,
   vector_to_midi_events ((STATUS_BYTES.lookup "NOTE_OFF").getD 0) v)

/-- Modelled from the spec: muser.iodata.midi_all_notes_off, called at
nn_fft.py line 99, is not among the source files; per the specification the
basic mode emits one NOTE_OFF event per pitch of the full MIDI range and the
other mode emits the single CONTROL/ALL_NOTES_OFF event.  The events it
sends over the rtmidi transport, by mode. -/
def iodata_midi_all_notes_off (midi_basic : Bool) : List MidiEvent :=
  if midi_basic then
    (List.range 128).map (fun p =>
      { status := (STATUS_BYTES.lookup "NOTE_OFF").getD 0, data1 := p, data2 := 0 })
  else
    [{ status := (STATUS_BYTES.lookup "CONTROL").getD 0
       data1 := (CONTROL_BYTES.lookup "ALL_NOTES_OFF").getD 0
       data2 := 0 }]

/-- An observable action of the nn_fft.py control thread, in program order. -/
inductive TraceAction where
  | set_note_toggle (b : Bool)
  | send_midi (events : List MidiEvent)
  | store_recording
  | reset_buffers
  | close_clients
  | reraise
deriving DecidableEq

/-- The close sequence of one capture cycle, nn_fft.py lines 90-93, in
program order: note_toggle = False; send_events(events[1]) with the
note-off half of to_midi_note_events(pitch_vector); store the accumulated
buffers into the recording; reset buffers to an empty array. -/
def closeSequence (pitch_vector : List Rat) : List TraceAction :=
  [.set_note_toggle false,
   .send_midi (to_midi_note_events pitch_vector).2,
   .store_recording,
   .reset_buffers]

/-- The except (KeyboardInterrupt, SystemExit) handler of nn_fft.py lines
95-103, in program order: note_toggle = False; send the events of
muser.iodata.midi_all_notes_off with midi_basic=True; delete the rtmidi and
jack clients; re-raise the interrupt.  No action stores the partially
captured buffers. -/
def interruptHandler : List TraceAction :=
  [.set_note_toggle false,
   .send_midi (iodata_midi_all_notes_off true),
   .close_clients,
   .reraise]

/-- The scripted two-channel callback of the C4 analysis: channels = 2 as in
nn_fft.py line 26, block size 1; nine frames with sound on both channels,
then a frame silent on channel 0 but sounding on channel 1, then silence. -/
def twoChannelScript : List Frame :=
  List.replicate 9 [[1], [1]] ++ [[[0], [5]]] ++ List.replicate 2 [[0], [0]]

/-- The scripted single-channel callback of the specification example:
sound during the first nine frames, silence from the tenth frame on (three
silent frames scripted, so an exit later than frame ten would be visible). -/
def singleChannelScript : List Frame :=
  List.replicate 9 [[1]] ++ List.replicate 3 [[0]]

/-- Faithfulness of the mkRat formulation: scaleVelocityToUint8 stores
exactly entry * VELOCITY_HI, read verbatim from sequencer.py line 199. -/
theorem scaleVelocityToUint8_eq (q : Rat) :
    scaleVelocityToUint8 q = floatToUint8 (q * (VELOCITY_HI : Rat)) := by
  unfold scaleVelocityToUint8
  congr 1
  rw [Rat.mkRat_eq_div]
  conv_rhs => rw [← Rat.num_div_den q]
  push_cast [VELOCITY_HI]
  ring

/-- Membership in np.flatnonzero: exactly the in-range indices of nonzero
entries. -/
theorem mem_flatnonzero (v : List Rat) (i : Nat) :
    i ∈ flatnonzero v ↔ i < v.length ∧ v.getD i 0 ≠ 0 := by
  simp [flatnonzero, List.mem_filter, List.mem_range]

/-- np.flatnonzero returns strictly ascending indices. -/
theorem flatnonzero_pairwise (v : List Rat) :
    List.Pairwise (· < ·) (flatnonzero v) :=
  (List.pairwise_lt_range _).filter _

/-- np.flatnonzero returns one index per nonzero entry of the vector. -/
theorem flatnonzero_length (v : List Rat) :
    (flatnonzero v).length = v.countP (fun x => decide (x ≠ 0)) := by
  induction v with
  | nil => rfl
  | cons a w ih =>
      unfold flatnonzero at ih ⊢
      rw [List.length_cons, List.range_succ_eq_map, List.filter_cons, List.filter_map]
      simp only [Function.comp_def, List.getD_cons_succ, List.getD_cons_zero,
        List.countP_cons, List.length_map]
      by_cases h : a ≠ 0
      · simp [h]
        simpa using ih
      · simp [h]
        simpa using ih

/-- The uint8 store is the identity-after-floor on values in [0, 127]:
no wrap happens there and the result is a valid MIDI data byte. -/
theorem floatToUint8_of_le (q : Rat) (h0 : 0 ≤ q) (h127 : q ≤ 127) :
    floatToUint8 q = (⌊q⌋).toNat ∧ floatToUint8 q ≤ 127 := by
  have hf0 : (0 : Int) ≤ ⌊q⌋ := Int.floor_nonneg.mpr h0
  have hf127 : ⌊q⌋ ≤ 127 := by
    have h := Int.floor_le_floor h127
    have h2 : ⌊(127 : Rat)⌋ = 127 := by norm_num
    omega
  unfold floatToUint8 truncTowardZero
  rw [if_pos h0, Int.emod_eq_of_lt hf0 (by omega)]
  exact ⟨rfl, by omega⟩

/-- A numpy fancy-index assignment fails as soon as one index is out of
bounds. -/
theorem resolveIndices_eq_none : ∀ {idxs : List Int} {len : Nat} {i : Int},
    i ∈ idxs → normIndex len i = none → resolveIndices len idxs = none
  | j :: js, len, i, hmem, hnone => by
      rcases List.mem_cons.mp hmem with h | h
      · subst h
        unfold resolveIndices
        rw [hnone]
      · unfold resolveIndices
        rw [resolveIndices_eq_none h hnone]
        cases normIndex len j <;> rfl

/-- A numpy fancy-index assignment succeeds when every index is in bounds. -/
theorem resolveIndices_isSome {len : Nat} : ∀ {idxs : List Int},
    (∀ i ∈ idxs, (normIndex len i).isSome) → ∃ js, resolveIndices len idxs = some js
  | [], _ => ⟨[], rfl⟩
  | i :: is, h => by
      obtain ⟨j, hj⟩ := Option.isSome_iff_exists.mp (h i (List.mem_cons_self i is))
      obtain ⟨js, hjs⟩ :=
        resolveIndices_isSome (fun x hx => h x (List.mem_cons_of_mem _ hx))
      refine ⟨j :: js, ?_⟩
      unfold resolveIndices
      rw [hj, hjs]

/-- Converting any chord that contains a pitch with MIDI number 2 or more
raises IndexError: midi_velocity_vector has length 1, so the only indices
the fancy assignment accepts are 0 (pitch 1) and -1 (pitch 0). -/
theorem chord_to_velocity_vector_indexError (c : Chord)
    (h : ∃ p ∈ c.pitches, 2 ≤ p) :
    chord_to_velocity_vector c = .error "IndexError" := by
  obtain ⟨p, hp, h2⟩ := h
  have hlen : midi_velocity_vector.length = 1 := by decide
  have hni : normIndex midi_velocity_vector.length ((p : Int) - 1) = none := by
    rw [hlen]
    unfold normIndex
    rw [if_neg (by push_cast; omega), if_neg (by push_cast; omega)]
  have hres : resolveIndices midi_velocity_vector.length
      (c.pitches.map (fun p : Nat => (p : Int) - 1)) = none :=
    resolveIndices_eq_none (List.mem_map_of_mem _ hp) hni
  unfold chord_to_velocity_vector setIndices
  dsimp only
  rw [hres]

/-- Converting a chord whose pitches all lie in {0, 1} does not raise. -/
theorem chord_to_velocity_vector_ok (c : Chord)
    (h : ∀ p ∈ c.pitches, p ≤ 1) :
    ∃ w, chord_to_velocity_vector c = .ok w := by
  have hsome : ∀ i ∈ c.pitches.map (fun p : Nat => (p : Int) - 1),
      (normIndex midi_velocity_vector.length i).isSome := by
    intro i hi
    obtain ⟨p, hp, rfl⟩ := List.mem_map.mp hi
    have hp1 := h p hp
    rcases Nat.le_one_iff_eq_zero_or_eq_one.mp hp1 with rfl | rfl <;> decide
  obtain ⟨js, hjs⟩ := resolveIndices_isSome hsome
  refine ⟨js.foldl (fun acc j => acc.set j (c.volume_velocity.getD 1)) midi_velocity_vector, ?_⟩
  unfold chord_to_velocity_vector setIndices
  dsimp only
  rw [hjs]

/-- Invariant of the capture loop: the scratch block buffer_ always holds
the last captured frame (or its initial contents while nothing is
captured). -/
theorem captureLoop_buffer_inv (scratch : Frame) :
    ∀ (fs : List Frame) (s : LoopState), s.note_toggle = true →
      s.buffer_ = s.buffers.getLastD scratch →
      (captureLoop s fs).buffer_ = (captureLoop s fs).buffers.getLastD scratch
  | [], _, _, hb => hb
  | f :: fs, s, ht, hb => by
      unfold captureLoop
      by_cases h : drainingCond s
      · rw [if_pos h]
        apply captureLoop_buffer_inv scratch fs
        · simp [process, ht]
        · simp [process, ht, List.getLastD_concat]
      · rw [if_neg h]
        exact hb

/-- The polling condition of nn_fft.py line 86 fails exactly when at least
10 frames are accumulated and channel 0 of the scratch block is silent. -/
theorem drainingCond_false_iff (s : LoopState) :
    drainingCond s = false ↔
      npAny (frameChannel0 s.buffer_) = false ∧ 10 ≤ s.buffers.length := by
  unfold drainingCond
  rw [Bool.or_eq_false_iff]
  simp [Nat.not_lt]

/-- C1: for every velocity vector v and status byte s,
vector_to_midi_events(s, v) returns exactly one MIDI event per nonzero
entry of v (its length is the count of nonzero entries), the events follow
the strictly ascending index order of np.flatnonzero, and every event
carries status byte s. -/
theorem C1_encode (s : Nat) (v : List Rat) (hs : s < 256) :
    (vector_to_midi_events s v).length = v.countP (fun x => decide (x ≠ 0))
    ∧ List.Pairwise (· < ·) (flatnonzero v)
    ∧ (∀ i, i ∈ flatnonzero v ↔ i < v.length ∧ v.getD i 0 ≠ 0)
    ∧ vector_to_midi_events s v = (flatnonzero v).map (fun p =>
        { status := s, data1 := p % 256, data2 := scaleVelocityToUint8 (v.getD p 0) })
    ∧ (∀ e ∈ vector_to_midi_events s v, e.status = s) := by
  have hmap : vector_to_midi_events s v = (flatnonzero v).map (fun p =>
      { status := s, data1 := p % 256, data2 := scaleVelocityToUint8 (v.getD p 0) }) := by
    unfold vector_to_midi_events
    simp only [Nat.mod_eq_of_lt hs]
  refine ⟨?_, flatnonzero_pairwise v, mem_flatnonzero v, hmap, ?_⟩
  · rw [hmap, List.length_map, flatnonzero_length]
  · intro e he
    rw [hmap] at he
    obtain ⟨p, _, rfl⟩ := List.mem_map.mp he
    rfl

/-- C1 witness: the encode property instantiated at status NOTE_ON and the
concrete vector [1/2, 0, 1]. -/
theorem C1_encode_witness :
    (vector_to_midi_events 0x90 [mkRat 1 2, 0, 1]).length =
      ([mkRat 1 2, 0, 1] : List Rat).countP (fun x => decide (x ≠ 0)) :=
  (C1_encode 0x90 [mkRat 1 2, 0, 1] (by decide)).1

/-- C2 counterexample: the entry 2.0 produces velocity byte 254, outside
[0, 127], and the entry 64.0 (a vector of MIDI-integer velocities, as
chord_to_velocity_vector builds) produces 64 * 127 = 8128, stored modulo
256 as 192: the code clamps nothing and wraps modulo 256. -/
theorem C2_velocity_counterexample :
    ((vector_to_midi_events 0x90 [2]).getD 0 ⟨0, 0, 0⟩).data2 = 254
    ∧ ¬ ((vector_to_midi_events 0x90 [2]).getD 0 ⟨0, 0, 0⟩).data2 ≤ 127
    ∧ ((vector_to_midi_events 0x90 [64]).getD 0 ⟨0, 0, 0⟩).data2 = 192 := by
  decide

/-- C2 amended: the velocity byte is trunc(entry * 127) mod 256 with no
clamping; for entries in [0, 1] no wrap occurs and the byte equals
the floor of entry * 127, which lies in [0, 127]. -/
theorem C2_velocity_amended (s : Nat) (v : List Rat) (i : Nat)
    (hmem : i ∈ flatnonzero v) (h0 : 0 ≤ v.getD i 0) (h1 : v.getD i 0 ≤ 1) :
    ∃ e ∈ vector_to_midi_events s v,
      e.data1 = i % 256
      ∧ e.data2 = floatToUint8 (v.getD i 0 * (VELOCITY_HI : Rat))
      ∧ e.data2 = (⌊v.getD i 0 * (VELOCITY_HI : Rat)⌋).toNat
      ∧ e.data2 ≤ 127 := by
  have hx0 : 0 ≤ v.getD i 0 * (VELOCITY_HI : Rat) :=
    mul_nonneg h0 (by norm_num [VELOCITY_HI])
  have hx127 : v.getD i 0 * (VELOCITY_HI : Rat) ≤ 127 := by
    have h := mul_le_mul_of_nonneg_right h1
      (by norm_num [VELOCITY_HI] : (0 : Rat) ≤ (VELOCITY_HI : Rat))
    simpa [VELOCITY_HI] using h
  obtain ⟨heq, hle⟩ := floatToUint8_of_le _ hx0 hx127
  refine ⟨{ status := s % 256, data1 := i % 256,
            data2 := scaleVelocityToUint8 (v.getD i 0) },
    List.mem_map_of_mem _ hmem, rfl, scaleVelocityToUint8_eq _, ?_, ?_⟩
  · rw [scaleVelocityToUint8_eq]
    exact heq
  · rw [scaleVelocityToUint8_eq]
    exact hle

/-- C2 witness: the amended velocity property at the concrete vector
[1/2], whose single event carries floor(1/2 * 127) = 63. -/
theorem C2_velocity_amended_witness :
    ∃ e ∈ vector_to_midi_events 0x90 [mkRat 1 2],
      e.data1 = 0 % 256
      ∧ e.data2 = floatToUint8 (([mkRat 1 2] : List Rat).getD 0 0 * (VELOCITY_HI : Rat))
      ∧ e.data2 = (⌊([mkRat 1 2] : List Rat).getD 0 0 * (VELOCITY_HI : Rat)⌋).toNat
      ∧ e.data2 ≤ 127 :=
  C2_velocity_amended 0x90 [mkRat 1 2] 0 (by decide) (by decide) (by decide)

set_option maxRecDepth 4000 in
/-- C3 counterexample: with midi_basic=True and pitch_range passed as the
bounds tuple (0, 127), the 127 NOTE_OFF events carry velocity byte 127, not
0 (midi_all_notes_off sets the vector entries to 1 and the encode scales by
127); and with the default pitch_range key the call raises TypeError. -/
theorem C3_all_notes_off_counterexample :
    ((midi_all_notes_off true (.pair 0 127)).toOption.getD []).length = 127
    ∧ (((midi_all_notes_off true (.pair 0 127)).toOption.getD []).getD 0 ⟨0, 0, 0⟩).data2 = 127
    ∧ ¬ (((midi_all_notes_off true (.pair 0 127)).toOption.getD []).getD 0 ⟨0, 0, 0⟩).data2 = 0
    ∧ midi_all_notes_off true (.key "midi") = .error "TypeError" := by
  decide

set_option maxRecDepth 4000 in
/-- C3 amended: with midi_basic=True and bounds (0, 127) the result is one
NOTE_OFF event per index 0..126 (pitch 127 gets none: the vector has
N_PITCHES = 127 entries), each with velocity byte 127; resolving the
pitch_range through a PITCH_RANGES key raises TypeError; with
midi_basic=False the result is the single CONTROL event with data1 = 0x7B,
for any pitch_range argument. -/
theorem C3_all_notes_off_amended :
    midi_all_notes_off true (.pair 0 127) =
      .ok ((List.range 127).map (fun k => { status := 0x80, data1 := k, data2 := 127 }))
    ∧ midi_all_notes_off true (.key "midi") = .error "TypeError"
    ∧ (∀ pr, midi_all_notes_off false pr =
        .ok [{ status := 0xB0, data1 := 0x7B, data2 := 0 }]) :=
  ⟨by decide, by decide, fun _ => rfl⟩

/-- C4 counterexample: with two channels (as in nn_fft.py, channels = 2) the
polling loop exits as soon as channel 0 of the scratch block is silent and
10 frames are accumulated, even though the last captured frame still has a
nonzero sample on channel 1 — the exit does not require the last captured
frame to be silent in all samples. -/
theorem C4_draining_counterexample :
    (captureLoop (initState [[0], [0]]) twoChannelScript).buffers.length = 10
    ∧ drainingCond (captureLoop (initState [[0], [0]]) twoChannelScript) = false
    ∧ frameSilentAll
        ((captureLoop (initState [[0], [0]]) twoChannelScript).buffers.getLastD []) = false := by
  decide

/-- C4 amended: the Draining poll exits exactly when at least 10 frames
(minimum_frames) are accumulated and channel 0 of the last captured frame
is silent (the scratch block always holds the last captured frame); for
the scripted single-channel callback producing silence from the tenth
frame on, the cycle closes exactly at frame 10 with buffer length 10 and a
fully silent last frame. -/
theorem C4_draining_amended :
    (∀ s : LoopState, drainingCond s = false ↔
        npAny (frameChannel0 s.buffer_) = false ∧ 10 ≤ s.buffers.length)
    ∧ (∀ (scratch : Frame) (fs : List Frame),
        (captureLoop (initState scratch) fs).buffer_ =
          (captureLoop (initState scratch) fs).buffers.getLastD scratch)
    ∧ (captureLoop (initState [[0]]) singleChannelScript).buffers.length = 10
    ∧ drainingCond (captureLoop (initState [[0]]) singleChannelScript) = false
    ∧ frameSilentAll
        ((captureLoop (initState [[0]]) singleChannelScript).buffers.getLastD []) = true := by
  refine ⟨drainingCond_false_iff, ?_, by decide, by decide, by decide⟩
  intro scratch fs
  exact captureLoop_buffer_inv scratch fs (initState scratch) rfl rfl

/-- C5: while note_toggle is false the process callback appends nothing:
the accumulation buffer is unchanged across the callback. -/
theorem C5_process_disabled (s : LoopState) (f : Frame)
    (h : s.note_toggle = false) : (process s f).buffers = s.buffers := by
  simp [process, h]

/-- C5 witness: a disabled callback delivering a sounding frame leaves the
empty buffer empty. -/
theorem C5_process_disabled_witness :
    (process { buffers := [], buffer_ := [], note_toggle := false } [[1]]).buffers = [] :=
  C5_process_disabled _ _ rfl

set_option maxRecDepth 4000 in
/-- C6 counterexample: the interrupt handler never issues the aggregate
all-notes-off (the single CONTROL/ALL_NOTES_OFF event): it calls
midi_all_notes_off with midi_basic=True, the per-note mode. -/
theorem C6_interrupt_counterexample :
    TraceAction.send_midi [{ status := 0xB0, data1 := 0x7B, data2 := 0 }] ∉ interruptHandler
    ∧ TraceAction.send_midi (iodata_midi_all_notes_off false) ∉ interruptHandler := by
  decide

set_option maxRecDepth 4000 in
/-- C6 amended: on an external interrupt the handler first disables the
sink (note_toggle = False), then issues a per-note (midi_basic=True)
all-notes-off — 128 NOTE_OFF events, not the single aggregate CONTROL
event — then tears the clients down and re-raises, so the interrupt
propagates; no action of the handler stores the partial buffer as a
recording. -/
theorem C6_interrupt_amended :
    interruptHandler.head? = some (.set_note_toggle false)
    ∧ TraceAction.send_midi (iodata_midi_all_notes_off true) ∈ interruptHandler
    ∧ (iodata_midi_all_notes_off true).all (fun e => decide (e.status = 0x80)) = true
    ∧ (iodata_midi_all_notes_off true).length = 128
    ∧ interruptHandler.getLast? = some .reraise
    ∧ TraceAction.store_recording ∉ interruptHandler := by
  decide

/-- C7 counterexample: constructing a velocity vector from a chord with the
out-of-range pitch 200 raises IndexError, not a ConfigurationError, and the
in-range pitch 60 raises the same IndexError — construction performs no
range validation at all. -/
theorem C7_construction_counterexample :
    chord_to_velocity_vector { pitches := [200], volume_velocity := none } = .error "IndexError"
    ∧ chord_to_velocity_vector { pitches := [60], volume_velocity := some 64 } = .error "IndexError"
    ∧ (Except.error "IndexError" : Except String (List Rat)) ≠ .error "ConfigurationError" := by
  decide

/-- C7 amended: no ConfigurationError exists; any chord containing a pitch
with MIDI number at least 2 — in range or not — raises IndexError at
construction time, chords with all pitches in {0, 1} construct without
error, and encode itself is total: vector_to_midi_events yields one event
per nonzero entry for every numeric vector. -/
theorem C7_construction_amended :
    (∀ c : Chord, (∃ p ∈ c.pitches, 2 ≤ p) →
        chord_to_velocity_vector c = .error "IndexError")
    ∧ (∀ c : Chord, (∀ p ∈ c.pitches, p ≤ 1) →
        ∃ w, chord_to_velocity_vector c = .ok w)
    ∧ (∀ (s : Nat) (v : List Rat),
        (vector_to_midi_events s v).length = (flatnonzero v).length) :=
  ⟨chord_to_velocity_vector_indexError, chord_to_velocity_vector_ok,
   fun _ _ => List.length_map _ _⟩

/-- C7 witness: the amended property at the concrete chord with the single
pitch 100 and velocity 64. -/
theorem C7_construction_amended_witness :
    chord_to_velocity_vector { pitches := [100], volume_velocity := some 64 } =
      .error "IndexError" :=
  C7_construction_amended.1 { pitches := [100], volume_velocity := some 64 }
    ⟨100, by decide, by decide⟩

/-- C8 counterexample: the first close action of a capture cycle is
disabling the sink (note_toggle = False), not sending the note-off
events — the sink is disabled before the note-off events are sent. -/
theorem C8_close_order_counterexample :
    (closeSequence [1]).head? = some (.set_note_toggle false)
    ∧ (closeSequence [1]).head? ≠ some (.send_midi (to_midi_note_events [1]).2) := by
  decide

/-- C8 amended: at the close of every capture cycle the sink is disabled
first, then the note-off events are sent, then the accumulated buffer is
stored into the recording (and finally reset). -/
theorem C8_close_order_amended (pitch_vector : List Rat) :
    ∃ rest, closeSequence pitch_vector =
      .set_note_toggle false
        :: .send_midi (to_midi_note_events pitch_vector).2
        :: .store_recording :: rest :=
  ⟨[.reset_buffers], rfl⟩

/-- C9: the pipeline of random_velocity_vector (random_chord followed by
chord_to_velocity_vector) raises IndexError for the drawn pitch 60 instead
of producing a vector with one active pitch; and when it does succeed (all
drawn pitches in {0, 1}) the two drawn pitches collapse into the single
entry of the length-1 vector, one nonzero entry instead of two. -/
theorem C9_generation_bug :
    random_velocity_vector [60] (some 64) = .error "IndexError"
    ∧ random_velocity_vector [0, 1] (some 64) = .ok [64] := by
  decide

/-- C10: midi_velocity_vector is np.zeros(PITCH_RANGES[midi-key][1]) where
the index-1 element of np.arange(0, 128) is 1, so the vector is [0.0], of
length 1 — not one entry per MIDI pitch; consequently
chord_to_velocity_vector raises IndexError for every chord containing a
pitch with MIDI number at least 2, while pitch 0 maps to index -1, the
last (and only) entry, and is written silently instead of raising. -/
theorem C10_length_one_vector :
    ((PITCH_RANGES "midi").getD []).getD 1 0 = 1
    ∧ midi_velocity_vector = [0]
    ∧ midi_velocity_vector.length = 1
    ∧ (∀ c : Chord, (∃ p ∈ c.pitches, 2 ≤ p) →
        chord_to_velocity_vector c = .error "IndexError")
    ∧ chord_to_velocity_vector { pitches := [0], volume_velocity := some 5 } = .ok [5] :=
  ⟨by decide, by decide, by decide, chord_to_velocity_vector_indexError, by decide⟩

/-- C10 witness: the IndexError conjunct at the concrete chord with the
single pitch 120. -/
theorem C10_length_one_vector_witness :
    chord_to_velocity_vector { pitches := [120], volume_velocity := some 3 } =
      .error "IndexError" :=
  C10_length_one_vector.2.2.2.1 { pitches := [120], volume_velocity := some 3 }
    ⟨120, by decide, by decide⟩
